import Mathlib

/-!
Shallow embedding of the CrewAI example repository.

Sources embedded here:
* `src/flows/flow_exemplo_flow.py` — the `FlowExemploState` schema, the step
  callbacks of `FlowExemplo`, and the router `decidir_tipo_processamento`.
* `src/tools/tool_examplo.py` — the `ExemploTool` methods.
* `src/crews/crew_exemplo/crew_exemplo_crew.py` — only its entry point
  signature matters here; the crew execution itself is an external service
  and is modelled as a function parameter.

The flow engine itself (`crewai.flow.flow`) is an external dependency and is
not part of the repository; its readiness/dispatch semantics are modelled
from the specification (see the definitions marked `Modelled from the spec`).
-/

/-- A Python dict with string keys and string values, as used for crew
results and for the error-marker fallback dicts in `flow_exemplo_flow.py`. -/
abbrev CrewDict := List (String × String)

/-- Python `str()` rendering of a string-valued dict, used by
`avaliar_complexidade` (content length) and as the `dados_complexos`
argument in `executar_crew_exemplo_2`. -/
def pyDictStr (d : CrewDict) : String :=
  "\x7b" ++ String.intercalate ", "
    (d.map (fun kv => "\x27" ++ kv.1 ++ "\x27: \x27" ++ kv.2 ++ "\x27")) ++ "\x7d"

/-- The Pydantic state schema `FlowExemploState` from
`src/flows/flow_exemplo_flow.py`, lines 52-80, with the same fields and the
same defaults. `topico` and `info_externa_1` are required fields (no
default); every other field has a schema default. -/
structure FlowExemploState where
  topico : String
  info_externa_1 : String
  info_externa_2 : String := ""
  info_externa_3 : String := ""
  resultado_crew_exemplo : CrewDict := []
  resultado_crew_exemplo_2 : CrewDict := []
  relatorio_final : String := ""
  processamento_complexo : Bool := false
  validacao_aprovada : Bool := false
  tipo_processamento : String := ""
  logs_or : List String := []
  logs_and : List String := []
  logs_router : List String := []
  deriving DecidableEq, Repr

/-- The initial inputs handed to `kickoff`: the keys the flow ever reads
from the raw input dict. A key that is absent is `none`. -/
structure FlowInput where
  topico : Option String := none
  info_externa_1 : Option String := none
  info_externa_2 : Option String := none
  info_externa_3 : Option String := none

/-- Step `iniciar_flow` (lines 105-138): builds the structured state from the
raw input dict using `get` with defaults, and returns `model_dump`. Only the
keys `topico` and `info_externa_1` are read. -/
def iniciar_flow (input : FlowInput) : FlowExemploState :=
  { topico := input.topico.getD "[Tópico não especificado]"
    info_externa_1 := input.info_externa_1.getD
      ("Contexto inicial sobre " ++ input.topico.getD "[Tópico]") }

/-- Step `preparar_informacoes_externas` (lines 140-173): unconditionally
overwrites the three `info_externa` fields with strings built from
`topico`. -/
def preparar_informacoes_externas (state : FlowExemploState) : FlowExemploState :=
  { state with
    info_externa_1 := "Contexto principal sobre \x27" ++ state.topico ++ "\x27"
    info_externa_2 := "Dados complementares relacionados a \x27" ++ state.topico ++ "\x27"
    info_externa_3 := "Informações adicionais relevantes para \x27" ++ state.topico ++ "\x27" }

/-- Step `executar_crew_exemplo` (lines 175-220): calls the external service
`metodo_de_execucao_da_crew` with the three `info_externa` fields; on
success stores the result, and a raised exception is caught and replaced by
the error-marker dict. The external call is a function parameter: `.error e`
models the call raising an exception with message `e`. -/
def executar_crew_exemplo (call : String → String → String → Except String CrewDict)
    (state : FlowExemploState) : FlowExemploState :=
  match call state.info_externa_1 state.info_externa_2 state.info_externa_3 with
  | .ok r => { state with resultado_crew_exemplo := r }
  | .error e => { state with resultado_crew_exemplo :=
      [("erro", e), ("resultado_alternativo", "Dados de fallback")] }

/-- Step `executar_crew_exemplo_2` (lines 222-257): calls
`metodo_de_execucao_da_crew_2` with `str(resultado_crew_exemplo)`,
`info_externa_1` and a string built from `topico`; exceptions are caught and
replaced by the error-marker dict. -/
def executar_crew_exemplo_2 (call : String → String → String → Except String CrewDict)
    (state : FlowExemploState) : FlowExemploState :=
  match call (pyDictStr state.resultado_crew_exemplo) state.info_externa_1
      ("Análise técnica de: " ++ state.topico) with
  | .ok r => { state with resultado_crew_exemplo_2 := r }
  | .error e => { state with resultado_crew_exemplo_2 :=
      [("erro", e), ("resultado_alternativo", "Análise complexa indisponível")] }

/-- Python `str()` of the consolidated-data dict built by
`gerar_relatorio_final` (lines 280-284). -/
def dadosConsolidadosStr (state : FlowExemploState) : String :=
  "\x7b\x27crew_exemplo\x27: " ++ pyDictStr state.resultado_crew_exemplo ++
  ", \x27crew_exemplo_2\x27: " ++ pyDictStr state.resultado_crew_exemplo_2 ++
  ", \x27topico\x27: \x27" ++ state.topico ++ "\x27\x7d"

/-- Step `gerar_relatorio_final` (lines 259-303): calls
`executar_crew_relatorio`; on success stores the raw report text, and a
raised exception is caught and replaced by the fallback report string. -/
def gerar_relatorio_final (call : String → String → Except String String)
    (state : FlowExemploState) : FlowExemploState :=
  match call (dadosConsolidadosStr state) state.topico with
  | .ok raw => { state with relatorio_final := raw }
  | .error e => { state with relatorio_final :=
      "Não foi possível gerar o relatório: " ++ e }

/-- Step `avaliar_complexidade` (lines 309-344): sets
`processamento_complexo` from the total content length against the 1000
threshold, and `validacao_aprovada` from `random.choice([True, False])`,
modelled as the parameter `val`. -/
def avaliar_complexidade (val : Bool) (state : FlowExemploState) : FlowExemploState :=
  { state with
    processamento_complexo :=
      decide (1000 < state.relatorio_final.length +
        (pyDictStr state.resultado_crew_exemplo).length +
        (pyDictStr state.resultado_crew_exemplo_2).length)
    validacao_aprovada := val }

/-- Router body `decidir_tipo_processamento` (lines 346-385): builds a local
copy of the state, writes `tipo_processamento` and appends to `logs_router`
on that local copy, and returns the route label. The pair is (local copy,
returned label); the local copy is a local variable the Python code
discards. -/
def decidir_tipo_processamento_local (s : FlowExemploState) : FlowExemploState × String :=
  if s.processamento_complexo && s.validacao_aprovada then
    ({ s with tipo_processamento := "complexo_aprovado"
              logs_router := s.logs_router ++ ["Escolhido: processamento complexo aprovado"] },
     "complexo_aprovado")
  else if s.processamento_complexo && !s.validacao_aprovada then
    ({ s with tipo_processamento := "complexo_rejeitado"
              logs_router := s.logs_router ++ ["Escolhido: processamento complexo rejeitado"] },
     "complexo_rejeitado")
  else if !s.processamento_complexo && s.validacao_aprovada then
    ({ s with tipo_processamento := "simples_aprovado"
              logs_router := s.logs_router ++ ["Escolhido: processamento simples aprovado"] },
     "simples_aprovado")
  else
    ({ s with tipo_processamento := "simples_rejeitado"
              logs_router := s.logs_router ++ ["Escolhido: processamento simples rejeitado"] },
     "simples_rejeitado")

/-- The value the router method actually returns to the flow engine: the
route label alone. -/
def decidir_tipo_processamento (s : FlowExemploState) : String :=
  (decidir_tipo_processamento_local s).2

/-- Step `processamento_avancado` (lines 390-404), listening on the label
`complexo_aprovado`. -/
def processamento_avancado (state : FlowExemploState) : FlowExemploState :=
  { state with logs_or := state.logs_or ++ ["Processamento avançado executado"] }

/-- Step `processamento_rapido` (lines 406-416), listening on the label
`simples_aprovado`. -/
def processamento_rapido (state : FlowExemploState) : FlowExemploState :=
  { state with logs_or := state.logs_or ++ ["Processamento rápido executado"] }

/-- Step `logger_processamento_aprovado` (lines 418-437), an OR-join over
`processamento_avancado` and `processamento_rapido`. -/
def logger_processamento_aprovado (state : FlowExemploState) : FlowExemploState :=
  { state with logs_or := state.logs_or ++ ["Logger OR: processamento aprovado registrado"] }

/-- Step `analise_rejeicao_complexa` (lines 442-452), listening on the label
`complexo_rejeitado`. -/
def analise_rejeicao_complexa (state : FlowExemploState) : FlowExemploState :=
  { state with logs_and := state.logs_and ++ ["Análise de rejeição complexa executada"] }

/-- Step `analise_rejeicao_simples` (lines 454-464), listening on the label
`simples_rejeitado`. -/
def analise_rejeicao_simples (state : FlowExemploState) : FlowExemploState :=
  { state with logs_and := state.logs_and ++ ["Análise de rejeição simples executada"] }

/-- Step `consolidar_analises_rejeicao` (lines 466-485), an AND-join over
`analise_rejeicao_complexa` and `analise_rejeicao_simples`. -/
def consolidar_analises_rejeicao (state : FlowExemploState) : FlowExemploState :=
  { state with logs_and := state.logs_and ++
      ["Consolidação AND: todas as análises de rejeição processadas"] }

/-- Step `finalizar_flow` (lines 487-547), an OR-join over
`logger_processamento_aprovado` and `consolidar_analises_rejeicao`: it only
prints a summary and returns the state unchanged. -/
def finalizar_flow (state : FlowExemploState) : FlowExemploState :=
  state

namespace ExemploTool

/-- Method `_metodo_interno_1` of `ExemploTool` (`src/tools/tool_examplo.py`,
lines 49-56). -/
def metodo_interno_1 : String := "metodo interno 1"

/-- Method `_metodo_interno_2` (lines 58-65). -/
def metodo_interno_2 : String := "metodo interno 2"

/-- Method `_metodo_interno_3` (lines 67-80): combines the two partial
results into the consolidated output string. -/
def metodo_interno_3 : String :=
  "Organizar as informações retornadas pelos métodos internos: " ++
    metodo_interno_1 ++ " " ++ metodo_interno_2

/-- Method `_run` (lines 82-96): ignores both arguments and returns the
consolidated string from `_metodo_interno_3`. -/
def run (argument_1 : String) (argument_2 : String) : String :=
  metodo_interno_3

end ExemploTool

/-!
Control-flow model of the flow engine. The engine (`crewai.flow.flow`) is an
external dependency, so its scheduling semantics are modelled from the
specification; the step graph itself (which step listens to what) is read
off the decorators in `src/flows/flow_exemplo_flow.py`.
-/

/-- The steps of `FlowExemplo`, one constructor per decorated method. -/
inductive Step where
  | iniciar_flow
  | preparar_informacoes_externas
  | executar_crew_exemplo
  | executar_crew_exemplo_2
  | gerar_relatorio_final
  | avaliar_complexidade
  | decidir_tipo_processamento
  | processamento_avancado
  | processamento_rapido
  | logger_processamento_aprovado
  | analise_rejeicao_complexa
  | analise_rejeicao_simples
  | consolidar_analises_rejeicao
  | finalizar_flow
  deriving DecidableEq, Repr

/-- Every step of the flow, listed once. -/
def allSteps : List Step :=
  [.iniciar_flow, .preparar_informacoes_externas, .executar_crew_exemplo,
   .executar_crew_exemplo_2, .gerar_relatorio_final, .avaliar_complexidade,
   .decidir_tipo_processamento, .processamento_avancado, .processamento_rapido,
   .logger_processamento_aprovado, .analise_rejeicao_complexa,
   .analise_rejeicao_simples, .consolidar_analises_rejeicao, .finalizar_flow]

/-- Modelled from the spec: readiness of a step given the set `done` of steps
already completed in this run and the label `label` returned by the router.
Per the spec, a step never re-executes; a single-predecessor step is ready
once its predecessor completed; a step registered under a route label is
ready once the router completed with that label; an OR-join is ready once
any listed predecessor completed; an AND-join is ready only once all listed
predecessors completed. The edges are the decorators of
`src/flows/flow_exemplo_flow.py`: the `@listen`, `@router`, `or_` and `and_`
declarations. -/
def ready (done : List Step) (label : String) (s : Step) : Bool :=
  !(decide (s ∈ done)) &&
  match s with
  | .iniciar_flow => true
  | .preparar_informacoes_externas => decide (Step.iniciar_flow ∈ done)
  | .executar_crew_exemplo => decide (Step.preparar_informacoes_externas ∈ done)
  | .executar_crew_exemplo_2 => decide (Step.executar_crew_exemplo ∈ done)
  | .gerar_relatorio_final => decide (Step.executar_crew_exemplo_2 ∈ done)
  | .avaliar_complexidade => decide (Step.gerar_relatorio_final ∈ done)
  | .decidir_tipo_processamento => decide (Step.avaliar_complexidade ∈ done)
  | .processamento_avancado =>
      decide (Step.decidir_tipo_processamento ∈ done) && decide (label = "complexo_aprovado")
  | .processamento_rapido =>
      decide (Step.decidir_tipo_processamento ∈ done) && decide (label = "simples_aprovado")
  | .analise_rejeicao_complexa =>
      decide (Step.decidir_tipo_processamento ∈ done) && decide (label = "complexo_rejeitado")
  | .analise_rejeicao_simples =>
      decide (Step.decidir_tipo_processamento ∈ done) && decide (label = "simples_rejeitado")
  | .logger_processamento_aprovado =>
      decide (Step.processamento_avancado ∈ done) || decide (Step.processamento_rapido ∈ done)
  | .consolidar_analises_rejeicao =>
      decide (Step.analise_rejeicao_complexa ∈ done) &&
        decide (Step.analise_rejeicao_simples ∈ done)
  | .finalizar_flow =>
      decide (Step.logger_processamento_aprovado ∈ done) ||
        decide (Step.consolidar_analises_rejeicao ∈ done)

/-- Whether any step at all is ready: the run terminates exactly when this
is false. -/
def readyAny (done : List Step) (label : String) : Bool :=
  allSteps.any (ready done label)

/-- An execution trace of one run, in reverse-chronological order (the head
is the step that completed last): each step was ready, given the steps
completed before it, at the moment it ran. -/
inductive ValidTrace (label : String) : List Step → Prop
  | nil : ValidTrace label []
  | cons {t : List Step} {s : Step} :
      ValidTrace label t → ready t label s = true → ValidTrace label (s :: t)

/-- Executable check for `ValidTrace`. -/
def validTraceB (label : String) : List Step → Bool
  | [] => true
  | s :: t => ready t label s && validTraceB label t

/-- The common prefix of every run, in reverse-chronological order: the
sequential chain from `iniciar_flow` through the router. -/
def traceBase : List Step :=
  [.decidir_tipo_processamento, .avaliar_complexidade, .gerar_relatorio_final,
   .executar_crew_exemplo_2, .executar_crew_exemplo,
   .preparar_informacoes_externas, .iniciar_flow]

/-- The full trace of a run routed to `complexo_aprovado`. -/
def traceComplexoAprovado : List Step :=
  [.finalizar_flow, .logger_processamento_aprovado, .processamento_avancado] ++ traceBase

/-- The full trace of a run routed to `simples_aprovado`. -/
def traceSimplesAprovado : List Step :=
  [.finalizar_flow, .logger_processamento_aprovado, .processamento_rapido] ++ traceBase

/-- The full trace of a run routed to `complexo_rejeitado`. -/
def traceComplexoRejeitado : List Step :=
  Step.analise_rejeicao_complexa :: traceBase

/-- The full trace of a run routed to `simples_rejeitado`. -/
def traceSimplesRejeitado : List Step :=
  Step.analise_rejeicao_simples :: traceBase

/-!
Data-level run: the composition of the step callbacks along the route the
router selects. The three external crew executions and the
`random.choice([True, False])` draw are the parameters of a run.
-/

/-- The three external services the flow calls: `metodo_de_execucao_da_crew`,
`metodo_de_execucao_da_crew_2` and `executar_crew_relatorio`. `.error e`
models the call raising an exception with message `e`. -/
structure ExternalCalls where
  crew_exemplo : String → String → String → Except String CrewDict
  crew_exemplo_2 : String → String → String → Except String CrewDict
  crew_relatorio : String → String → Except String String

/-- The state after the sequential chain `iniciar_flow` →
`preparar_informacoes_externas` → `executar_crew_exemplo` →
`executar_crew_exemplo_2` → `gerar_relatorio_final` →
`avaliar_complexidade`: the state the router receives. -/
def estadoAposAvaliar (ext : ExternalCalls) (val : Bool) (inp : FlowInput) : FlowExemploState :=
  avaliar_complexidade val
    (gerar_relatorio_final ext.crew_relatorio
      (executar_crew_exemplo_2 ext.crew_exemplo_2
        (executar_crew_exemplo ext.crew_exemplo
          (preparar_informacoes_externas (iniciar_flow inp)))))

/-- Modelled from the spec: a routing step does not produce a new
WorkflowState — its callback returns a route label, and the engine forwards
the state the router received, unchanged, to the steps registered under
that label. The dispatch result is (returned label, forwarded state). -/
def routerDispatch (s : FlowExemploState) : String × FlowExemploState :=
  (decidir_tipo_processamento s, s)

/-- The downstream composition for each route label, matching the unique
maximal continuation of the readiness model: the two approved labels run
their processing step, the OR-join logger and the OR-join finalize; the two
rejected labels run only their analysis step, because the AND-join
`consolidar_analises_rejeicao` waits for both analyses and the other one
never runs. -/
def ramoAposRouter (p : String × FlowExemploState) : FlowExemploState :=
  if p.1 = "complexo_aprovado" then
    finalizar_flow (logger_processamento_aprovado (processamento_avancado p.2))
  else if p.1 = "simples_aprovado" then
    finalizar_flow (logger_processamento_aprovado (processamento_rapido p.2))
  else if p.1 = "complexo_rejeitado" then
    analise_rejeicao_complexa p.2
  else
    analise_rejeicao_simples p.2

/-- A full run of `FlowExemplo`: the state of the last step to complete,
which is what `kickoff` hands back to the caller. -/
def runFlow (ext : ExternalCalls) (val : Bool) (inp : FlowInput) : FlowExemploState :=
  ramoAposRouter (routerDispatch (estadoAposAvaliar ext val inp))

/-- The execution trace (reverse-chronological) of the run for each route
label. -/
def traceOfLabel (label : String) : List Step :=
  if label = "complexo_aprovado" then traceComplexoAprovado
  else if label = "simples_aprovado" then traceSimplesAprovado
  else if label = "complexo_rejeitado" then traceComplexoRejeitado
  else traceSimplesRejeitado

/-- The execution trace of a full run. -/
def runTrace (ext : ExternalCalls) (val : Bool) (inp : FlowInput) : List Step :=
  traceOfLabel (decidir_tipo_processamento (estadoAposAvaliar ext val inp))

/-!
Serialization model: `model_dump` and Pydantic re-validation
(`FlowExemploState(**state)`), for the round-trip property.
-/

/-- A value of the serialized state dict: Pydantic field values occurring in
`FlowExemploState`. -/
inductive Value where
  | str (s : String)
  | bool (b : Bool)
  | dict (d : CrewDict)
  | list (l : List String)
  deriving DecidableEq, Repr

/-- `model_dump()`: the serialized dict of a `FlowExemploState`, one entry
per schema field, in declaration order. -/
def model_dump (s : FlowExemploState) : List (String × Value) :=
  [("topico", .str s.topico),
   ("info_externa_1", .str s.info_externa_1),
   ("info_externa_2", .str s.info_externa_2),
   ("info_externa_3", .str s.info_externa_3),
   ("resultado_crew_exemplo", .dict s.resultado_crew_exemplo),
   ("resultado_crew_exemplo_2", .dict s.resultado_crew_exemplo_2),
   ("relatorio_final", .str s.relatorio_final),
   ("processamento_complexo", .bool s.processamento_complexo),
   ("validacao_aprovada", .bool s.validacao_aprovada),
   ("tipo_processamento", .str s.tipo_processamento),
   ("logs_or", .list s.logs_or),
   ("logs_and", .list s.logs_and),
   ("logs_router", .list s.logs_router)]

/-- Key lookup in a serialized dict. -/
def getField : List (String × Value) → String → Option Value
  | [], _ => none
  | (k, v) :: rest, key => if k = key then some v else getField rest key

/-- A required string field: present and of string type, else a validation
error. -/
def reqStr : Option Value → Option String
  | some (.str s) => some s
  | _ => none

/-- An optional string field with a schema default. -/
def optStr : Option Value → String → Option String
  | none, dflt => some dflt
  | some (.str s), _ => some s
  | some _, _ => none

/-- An optional bool field with a schema default. -/
def optBool : Option Value → Bool → Option Bool
  | none, dflt => some dflt
  | some (.bool b), _ => some b
  | some _, _ => none

/-- An optional dict field with a schema default. -/
def optDict : Option Value → CrewDict → Option CrewDict
  | none, dflt => some dflt
  | some (.dict d), _ => some d
  | some _, _ => none

/-- An optional list field with a schema default. -/
def optList : Option Value → List String → Option (List String)
  | none, dflt => some dflt
  | some (.list l), _ => some l
  | some _, _ => none

/-- Pydantic validation `FlowExemploState(**d)`: every field is looked up by
name, type-checked, and defaulted when absent; `none` models a raised
`ValidationError`. Extra keys are ignored (the Pydantic default). -/
def flowExemploState_validate (d : List (String × Value)) : Option FlowExemploState := do
  let topico ← reqStr (getField d "topico")
  let i1 ← reqStr (getField d "info_externa_1")
  let i2 ← optStr (getField d "info_externa_2") ""
  let i3 ← optStr (getField d "info_externa_3") ""
  let r1 ← optDict (getField d "resultado_crew_exemplo") []
  let r2 ← optDict (getField d "resultado_crew_exemplo_2") []
  let rel ← optStr (getField d "relatorio_final") ""
  let pc ← optBool (getField d "processamento_complexo") false
  let va ← optBool (getField d "validacao_aprovada") false
  let tp ← optStr (getField d "tipo_processamento") ""
  let lo ← optList (getField d "logs_or") []
  let la ← optList (getField d "logs_and") []
  let lr ← optList (getField d "logs_router") []
  pure { topico := topico, info_externa_1 := i1, info_externa_2 := i2,
         info_externa_3 := i3, resultado_crew_exemplo := r1,
         resultado_crew_exemplo_2 := r2, relatorio_final := rel,
         processamento_complexo := pc, validacao_aprovada := va,
         tipo_processamento := tp, logs_or := lo, logs_and := la,
         logs_router := lr }

/-- Concrete external services for sample runs: every call succeeds with a
small result. -/
def ext0 : ExternalCalls :=
  { crew_exemplo := fun _ _ _ => .ok [("resultado", "ok")]
    crew_exemplo_2 := fun _ _ _ => .ok [("analise", "ok")]
    crew_relatorio := fun _ _ => .ok "relatorio" }

/-- A concrete initial input dict supplying only the topic. -/
def inp0 : FlowInput := { topico := some "t" }

/-!
Theorems. First the shared structural lemmas about the readiness model,
then one theorem per claim.
-/

theorem validTraceB_sound (label : String) :
    ∀ t : List Step, validTraceB label t = true → ValidTrace label t := by
  intro t
  induction t with
  | nil => intro _; exact ValidTrace.nil
  | cons s t ih =>
    intro h
    simp only [validTraceB, Bool.and_eq_true] at h
    exact ValidTrace.cons (ih h.2) h.1

theorem ready_false_all {t : List Step} {label : String} (h : readyAny t label = false)
    (s : Step) : ready t label s = false := by
  have hs : s ∈ allSteps := by cases s <;> decide
  have := List.any_eq_false.mp h
  exact Bool.eq_false_iff.mpr (this s hs)

theorem mem_valid_split {label : String} {t : List Step} (h : ValidTrace label t) :
    ∀ {s : Step}, s ∈ t →
      ∃ t2, ValidTrace label t2 ∧ ready t2 label s = true ∧ ∀ x ∈ t2, x ∈ t := by
  induction h with
  | nil => intro s hs; simp at hs
  | cons hv hr ih =>
    intro s hs
    rcases List.mem_cons.mp hs with heq | hmem
    · subst heq
      exact ⟨_, hv, hr, fun x hx => List.mem_cons_of_mem _ hx⟩
    · obtain ⟨t2, h1, h2, h3⟩ := ih hmem
      exact ⟨t2, h1, h2, fun x hx => List.mem_cons_of_mem _ (h3 x hx)⟩

theorem valid_nodup {label : String} {t : List Step} (h : ValidTrace label t) : t.Nodup := by
  induction h with
  | nil => exact List.nodup_nil
  | cons hv hr ih =>
    rw [ready.eq_def, Bool.and_eq_true] at hr
    exact List.nodup_cons.mpr ⟨by simpa using hr.1, ih⟩

theorem procAvancado_label {label : String} {t : List Step} (h : ValidTrace label t)
    (hm : Step.processamento_avancado ∈ t) : label = "complexo_aprovado" := by
  obtain ⟨t2, _, hr, _⟩ := mem_valid_split h hm
  simp [ready] at hr
  exact hr.2.2

theorem procRapido_label {label : String} {t : List Step} (h : ValidTrace label t)
    (hm : Step.processamento_rapido ∈ t) : label = "simples_aprovado" := by
  obtain ⟨t2, _, hr, _⟩ := mem_valid_split h hm
  simp [ready] at hr
  exact hr.2.2

theorem analiseComplexa_label {label : String} {t : List Step} (h : ValidTrace label t)
    (hm : Step.analise_rejeicao_complexa ∈ t) : label = "complexo_rejeitado" := by
  obtain ⟨t2, _, hr, _⟩ := mem_valid_split h hm
  simp [ready] at hr
  exact hr.2.2

theorem analiseSimples_label {label : String} {t : List Step} (h : ValidTrace label t)
    (hm : Step.analise_rejeicao_simples ∈ t) : label = "simples_rejeitado" := by
  obtain ⟨t2, _, hr, _⟩ := mem_valid_split h hm
  simp [ready] at hr
  exact hr.2.2

theorem logger_label {label : String} {t : List Step} (h : ValidTrace label t)
    (hm : Step.logger_processamento_aprovado ∈ t) :
    label = "complexo_aprovado" ∨ label = "simples_aprovado" := by
  obtain ⟨t2, hv2, hr, _⟩ := mem_valid_split h hm
  simp [ready] at hr
  rcases hr.2 with hp | hp
  · exact Or.inl (procAvancado_label hv2 hp)
  · exact Or.inr (procRapido_label hv2 hp)

theorem consolidar_never {label : String} {t : List Step} (h : ValidTrace label t) :
    Step.consolidar_analises_rejeicao ∉ t := by
  intro hm
  obtain ⟨t2, hv2, hr, _⟩ := mem_valid_split h hm
  simp [ready] at hr
  have h1 := analiseComplexa_label hv2 hr.2.1
  have h2 := analiseSimples_label hv2 hr.2.2
  rw [h1] at h2
  exact absurd h2 (by decide)

theorem executar_crew_exemplo_tipo (call : String → String → String → Except String CrewDict)
    (s : FlowExemploState) :
    (executar_crew_exemplo call s).tipo_processamento = s.tipo_processamento := by
  cases hc : call s.info_externa_1 s.info_externa_2 s.info_externa_3 <;>
    simp [executar_crew_exemplo, hc]

theorem executar_crew_exemplo_2_tipo (call : String → String → String → Except String CrewDict)
    (s : FlowExemploState) :
    (executar_crew_exemplo_2 call s).tipo_processamento = s.tipo_processamento := by
  cases hc : call (pyDictStr s.resultado_crew_exemplo) s.info_externa_1
      ("Análise técnica de: " ++ s.topico) <;>
    simp [executar_crew_exemplo_2, hc]

theorem gerar_relatorio_final_tipo (call : String → String → Except String String)
    (s : FlowExemploState) :
    (gerar_relatorio_final call s).tipo_processamento = s.tipo_processamento := by
  cases hc : call (dadosConsolidadosStr s) s.topico <;>
    simp [gerar_relatorio_final, hc]

theorem executar_crew_exemplo_logs_router
    (call : String → String → String → Except String CrewDict) (s : FlowExemploState) :
    (executar_crew_exemplo call s).logs_router = s.logs_router := by
  cases hc : call s.info_externa_1 s.info_externa_2 s.info_externa_3 <;>
    simp [executar_crew_exemplo, hc]

theorem executar_crew_exemplo_2_logs_router
    (call : String → String → String → Except String CrewDict) (s : FlowExemploState) :
    (executar_crew_exemplo_2 call s).logs_router = s.logs_router := by
  cases hc : call (pyDictStr s.resultado_crew_exemplo) s.info_externa_1
      ("Análise técnica de: " ++ s.topico) <;>
    simp [executar_crew_exemplo_2, hc]

theorem gerar_relatorio_final_logs_router (call : String → String → Except String String)
    (s : FlowExemploState) :
    (gerar_relatorio_final call s).logs_router = s.logs_router := by
  cases hc : call (dadosConsolidadosStr s) s.topico <;>
    simp [gerar_relatorio_final, hc]

theorem estadoAposAvaliar_tipo (ext : ExternalCalls) (val : Bool) (inp : FlowInput) :
    (estadoAposAvaliar ext val inp).tipo_processamento = "" := by
  simp [estadoAposAvaliar, avaliar_complexidade, gerar_relatorio_final_tipo,
    executar_crew_exemplo_2_tipo, executar_crew_exemplo_tipo,
    preparar_informacoes_externas, iniciar_flow]

theorem estadoAposAvaliar_logs_router (ext : ExternalCalls) (val : Bool) (inp : FlowInput) :
    (estadoAposAvaliar ext val inp).logs_router = [] := by
  simp [estadoAposAvaliar, avaliar_complexidade, gerar_relatorio_final_logs_router,
    executar_crew_exemplo_2_logs_router, executar_crew_exemplo_logs_router,
    preparar_informacoes_externas, iniciar_flow]

theorem runFlow_tipo (ext : ExternalCalls) (val : Bool) (inp : FlowInput) :
    (runFlow ext val inp).tipo_processamento = "" := by
  unfold runFlow ramoAposRouter routerDispatch
  split
  · exact estadoAposAvaliar_tipo ext val inp
  split
  · exact estadoAposAvaliar_tipo ext val inp
  split
  · exact estadoAposAvaliar_tipo ext val inp
  · exact estadoAposAvaliar_tipo ext val inp

theorem decidir_cases (s : FlowExemploState) :
    decidir_tipo_processamento s = "complexo_aprovado" ∨
    decidir_tipo_processamento s = "complexo_rejeitado" ∨
    decidir_tipo_processamento s = "simples_aprovado" ∨
    decidir_tipo_processamento s = "simples_rejeitado" := by
  cases hc : s.processamento_complexo <;> cases hv : s.validacao_aprovada <;>
    simp [decidir_tipo_processamento, decidir_tipo_processamento_local, hc, hv]

theorem mem_of_maximal {t : List Step} {label : String} {s : Step}
    (hmax : readyAny t label = false) (hr : s ∉ t → ready t label s = true) : s ∈ t := by
  by_contra hn
  have h := hr hn
  rw [ready_false_all hmax s] at h
  exact Bool.false_ne_true h

/-- Claim C1, counterexample: a complete run routed to `complexo_rejeitado`
(a valid trace whose ready set is empty) in which `finalizar_flow` never
executed, contradicting the claim that every route label heads a chain
reaching `finalizar_flow` before the ready set becomes empty. -/
theorem finalizar_convergence_counterexample :
    ValidTrace "complexo_rejeitado" traceComplexoRejeitado ∧
    readyAny traceComplexoRejeitado "complexo_rejeitado" = false ∧
    Step.finalizar_flow ∉ traceComplexoRejeitado :=
  ⟨validTraceB_sound _ _ (by decide), by decide, by decide⟩

/-- Claim C1, amended: the two approved labels head chains that reach the
convergent finalize step `finalizar_flow` before the ready set becomes
empty, but the two rejected labels do not — a run routed to a rejected
label terminates without ever executing `finalizar_flow`, because the
AND-join `consolidar_analises_rejeicao` waits for both rejection analyses
and the two analyses listen on mutually exclusive route labels. -/
theorem finalizar_convergence_amended :
    (∀ t : List Step, ValidTrace "complexo_aprovado" t →
       readyAny t "complexo_aprovado" = false → Step.finalizar_flow ∈ t) ∧
    (∀ t : List Step, ValidTrace "simples_aprovado" t →
       readyAny t "simples_aprovado" = false → Step.finalizar_flow ∈ t) ∧
    (∀ t : List Step, ValidTrace "complexo_rejeitado" t → Step.finalizar_flow ∉ t) ∧
    (∀ t : List Step, ValidTrace "simples_rejeitado" t → Step.finalizar_flow ∉ t) := by
  refine ⟨?_, ?_, ?_, ?_⟩
  · intro t _ hmax
    have h1 : Step.iniciar_flow ∈ t := mem_of_maximal hmax (fun hn => by simp [ready, hn])
    have h2 : Step.preparar_informacoes_externas ∈ t :=
      mem_of_maximal hmax (fun hn => by simp [ready, hn, h1])
    have h3 : Step.executar_crew_exemplo ∈ t :=
      mem_of_maximal hmax (fun hn => by simp [ready, hn, h2])
    have h4 : Step.executar_crew_exemplo_2 ∈ t :=
      mem_of_maximal hmax (fun hn => by simp [ready, hn, h3])
    have h5 : Step.gerar_relatorio_final ∈ t :=
      mem_of_maximal hmax (fun hn => by simp [ready, hn, h4])
    have h6 : Step.avaliar_complexidade ∈ t :=
      mem_of_maximal hmax (fun hn => by simp [ready, hn, h5])
    have h7 : Step.decidir_tipo_processamento ∈ t :=
      mem_of_maximal hmax (fun hn => by simp [ready, hn, h6])
    have h8 : Step.processamento_avancado ∈ t :=
      mem_of_maximal hmax (fun hn => by simp [ready, hn, h7])
    have h9 : Step.logger_processamento_aprovado ∈ t :=
      mem_of_maximal hmax (fun hn => by simp [ready, hn, h8])
    exact mem_of_maximal hmax (fun hn => by simp [ready, hn, h9])
  · intro t _ hmax
    have h1 : Step.iniciar_flow ∈ t := mem_of_maximal hmax (fun hn => by simp [ready, hn])
    have h2 : Step.preparar_informacoes_externas ∈ t :=
      mem_of_maximal hmax (fun hn => by simp [ready, hn, h1])
    have h3 : Step.executar_crew_exemplo ∈ t :=
      mem_of_maximal hmax (fun hn => by simp [ready, hn, h2])
    have h4 : Step.executar_crew_exemplo_2 ∈ t :=
      mem_of_maximal hmax (fun hn => by simp [ready, hn, h3])
    have h5 : Step.gerar_relatorio_final ∈ t :=
      mem_of_maximal hmax (fun hn => by simp [ready, hn, h4])
    have h6 : Step.avaliar_complexidade ∈ t :=
      mem_of_maximal hmax (fun hn => by simp [ready, hn, h5])
    have h7 : Step.decidir_tipo_processamento ∈ t :=
      mem_of_maximal hmax (fun hn => by simp [ready, hn, h6])
    have h8 : Step.processamento_rapido ∈ t :=
      mem_of_maximal hmax (fun hn => by simp [ready, hn, h7])
    have h9 : Step.logger_processamento_aprovado ∈ t :=
      mem_of_maximal hmax (fun hn => by simp [ready, hn, h8])
    exact mem_of_maximal hmax (fun hn => by simp [ready, hn, h9])
  · intro t hv hm
    obtain ⟨t2, hv2, hr, _⟩ := mem_valid_split hv hm
    simp [ready] at hr
    rcases hr.2 with hl | hc
    · rcases logger_label hv2 hl with h | h <;> exact absurd h (by decide)
    · exact absurd hc (consolidar_never hv2)
  · intro t hv hm
    obtain ⟨t2, hv2, hr, _⟩ := mem_valid_split hv hm
    simp [ready] at hr
    rcases hr.2 with hl | hc
    · rcases logger_label hv2 hl with h | h <;> exact absurd h (by decide)
    · exact absurd hc (consolidar_never hv2)

/-- Witness for the amended claim C1: the concrete complete approved run
contains `finalizar_flow`, and the concrete complete rejected run does
not. -/
theorem finalizar_convergence_amended_witness :
    (validTraceB "complexo_aprovado" traceComplexoAprovado = true ∧
     readyAny traceComplexoAprovado "complexo_aprovado" = false ∧
     Step.finalizar_flow ∈ traceComplexoAprovado) ∧
    (validTraceB "complexo_rejeitado" traceComplexoRejeitado = true ∧
     Step.finalizar_flow ∉ traceComplexoRejeitado) :=
  ⟨⟨by decide, by decide,
    finalizar_convergence_amended.1 traceComplexoAprovado
      (validTraceB_sound _ _ (by decide)) (by decide)⟩,
   ⟨by decide,
    finalizar_convergence_amended.2.2.1 traceComplexoRejeitado
      (validTraceB_sound _ _ (by decide))⟩⟩

/-- Claim C2, counterexample: a concrete run in which the two flags are
(false, true), so the claimed truth table demands the final state field
`tipo_processamento = "simples_aprovado"`, yet the final state returned by
the run has `tipo_processamento = ""`: the router writes the label only to
a local copy that is discarded. -/
theorem tipo_processamento_counterexample :
    (estadoAposAvaliar ext0 true inp0).processamento_complexo = false ∧
    (estadoAposAvaliar ext0 true inp0).validacao_aprovada = true ∧
    decidir_tipo_processamento (estadoAposAvaliar ext0 true inp0) = "simples_aprovado" ∧
    (runFlow ext0 true inp0).tipo_processamento = "" ∧
    (runFlow ext0 true inp0).tipo_processamento ≠ "simples_aprovado" :=
  ⟨by decide, by decide, by decide, by decide, by decide⟩

/-- Claim C2, amended: the label the router returns follows the documented
truth table over the two flags, and the router also writes that label to
the `tipo_processamento` field of its local state copy, but the final state
of every run has `tipo_processamento` equal to the empty string (the schema
default), because the local copy is discarded. -/
theorem tipo_processamento_amended :
    ∀ (ext : ExternalCalls) (val : Bool) (inp : FlowInput),
    decidir_tipo_processamento (estadoAposAvaliar ext val inp) =
      (if (estadoAposAvaliar ext val inp).processamento_complexo then
         if (estadoAposAvaliar ext val inp).validacao_aprovada then "complexo_aprovado"
         else "complexo_rejeitado"
       else
         if (estadoAposAvaliar ext val inp).validacao_aprovada then "simples_aprovado"
         else "simples_rejeitado") ∧
    (decidir_tipo_processamento_local (estadoAposAvaliar ext val inp)).1.tipo_processamento =
      decidir_tipo_processamento (estadoAposAvaliar ext val inp) ∧
    (runFlow ext val inp).tipo_processamento = "" := by
  intro ext val inp
  refine ⟨?_, ?_, runFlow_tipo ext val inp⟩
  · cases hc : (estadoAposAvaliar ext val inp).processamento_complexo <;>
      cases hv : (estadoAposAvaliar ext val inp).validacao_aprovada <;>
      simp [decidir_tipo_processamento, decidir_tipo_processamento_local, hc, hv]
  · cases hc : (estadoAposAvaliar ext val inp).processamento_complexo <;>
      cases hv : (estadoAposAvaliar ext val inp).validacao_aprovada <;>
      simp [decidir_tipo_processamento, decidir_tipo_processamento_local, hc, hv]

/-- Claim C3: every exception of a fallible step is caught at the step
boundary and replaced by the documented error marker, the rest of the state
is untouched, and every run — whatever the outcome of each external call —
completes a full valid trace whose ready set is empty, so the flow is never
aborted. -/
theorem degrade_policy :
    (∀ (e : String) (s : FlowExemploState),
       executar_crew_exemplo (fun _ _ _ => .error e) s =
         { s with resultado_crew_exemplo :=
             [("erro", e), ("resultado_alternativo", "Dados de fallback")] }) ∧
    (∀ (e : String) (s : FlowExemploState),
       executar_crew_exemplo_2 (fun _ _ _ => .error e) s =
         { s with resultado_crew_exemplo_2 :=
             [("erro", e), ("resultado_alternativo", "Análise complexa indisponível")] }) ∧
    (∀ (e : String) (s : FlowExemploState),
       gerar_relatorio_final (fun _ _ => .error e) s =
         { s with relatorio_final := "Não foi possível gerar o relatório: " ++ e }) ∧
    (∀ (ext : ExternalCalls) (val : Bool) (inp : FlowInput),
       ValidTrace (decidir_tipo_processamento (estadoAposAvaliar ext val inp))
         (runTrace ext val inp) ∧
       readyAny (runTrace ext val inp)
         (decidir_tipo_processamento (estadoAposAvaliar ext val inp)) = false) := by
  refine ⟨fun _ _ => rfl, fun _ _ => rfl, fun _ _ => rfl, ?_⟩
  intro ext val inp
  rcases decidir_cases (estadoAposAvaliar ext val inp) with h | h | h | h <;>
    simp only [runTrace, h] <;>
    exact ⟨validTraceB_sound _ _ (by decide), by decide⟩

/-- Claim C4: the routing step does not change the workflow state — the
state forwarded to the step registered under the returned label is exactly
the output of `avaliar_complexidade`, and the writes the router body makes
(the `tipo_processamento` assignment and the `logs_router` append) exist
only on its discarded local copy: the forwarded state still carries the
empty-string `tipo_processamento` and the empty `logs_router`. -/
theorem router_state_invisible :
    ∀ (ext : ExternalCalls) (val : Bool) (inp : FlowInput),
    (routerDispatch (estadoAposAvaliar ext val inp)).2 = estadoAposAvaliar ext val inp ∧
    (decidir_tipo_processamento_local (estadoAposAvaliar ext val inp)).1.logs_router ≠
      (routerDispatch (estadoAposAvaliar ext val inp)).2.logs_router ∧
    (routerDispatch (estadoAposAvaliar ext val inp)).2.tipo_processamento = "" ∧
    (routerDispatch (estadoAposAvaliar ext val inp)).2.logs_router = [] := by
  intro ext val inp
  refine ⟨rfl, ?_, estadoAposAvaliar_tipo ext val inp, estadoAposAvaliar_logs_router ext val inp⟩
  have h0 := estadoAposAvaliar_logs_router ext val inp
  cases hc : (estadoAposAvaliar ext val inp).processamento_complexo <;>
    cases hv : (estadoAposAvaliar ext val inp).validacao_aprovada <;>
    simp [decidir_tipo_processamento_local, routerDispatch, hc, hv, h0]

/-- Claim C5: the AND-join `consolidar_analises_rejeicao` is ready only when
both `analise_rejeicao_complexa` and `analise_rejeicao_simples` have
completed, and in every valid trace — whatever the completion order — it
has not executed as long as either predecessor is missing. -/
theorem and_join_requires_both :
    (∀ (label : String) (done : List Step),
       ready done label Step.consolidar_analises_rejeicao = true ↔
         Step.analise_rejeicao_complexa ∈ done ∧ Step.analise_rejeicao_simples ∈ done ∧
           Step.consolidar_analises_rejeicao ∉ done) ∧
    (∀ (label : String) (t : List Step), ValidTrace label t →
       (Step.analise_rejeicao_complexa ∉ t ∨ Step.analise_rejeicao_simples ∉ t) →
         Step.consolidar_analises_rejeicao ∉ t) := by
  constructor
  · intro label done
    simp [ready]
    tauto
  · intro label t h hd hm
    obtain ⟨t2, _, hr, hsub⟩ := mem_valid_split h hm
    simp [ready] at hr
    rcases hd with hd | hd
    · exact hd (hsub _ hr.2.1)
    · exact hd (hsub _ hr.2.2)

/-- Witness for claim C5: in the concrete complete rejected run only the
complex analysis executed, and the AND-join did not fire. -/
theorem and_join_requires_both_witness :
    validTraceB "complexo_rejeitado" traceComplexoRejeitado = true ∧
    Step.analise_rejeicao_simples ∉ traceComplexoRejeitado ∧
    Step.consolidar_analises_rejeicao ∉ traceComplexoRejeitado :=
  ⟨by decide, by decide,
   and_join_requires_both.2 "complexo_rejeitado" traceComplexoRejeitado
     (validTraceB_sound _ _ (by decide)) (Or.inr (by decide))⟩

/-- Claim C6: each OR-join fires after the first of its predecessors — in a
terminated run (empty ready set), if any predecessor of
`logger_processamento_aprovado` or of `finalizar_flow` completed, the join
itself has executed — and fires at most once per run: in every valid trace
each OR-join occurs at most once. -/
theorem or_join_single_fire :
    (∀ (label : String) (t : List Step), readyAny t label = false →
       ((Step.processamento_avancado ∈ t ∨ Step.processamento_rapido ∈ t) →
          Step.logger_processamento_aprovado ∈ t) ∧
       ((Step.logger_processamento_aprovado ∈ t ∨ Step.consolidar_analises_rejeicao ∈ t) →
          Step.finalizar_flow ∈ t)) ∧
    (∀ (label : String) (t : List Step), ValidTrace label t →
       t.count Step.logger_processamento_aprovado ≤ 1 ∧
       t.count Step.finalizar_flow ≤ 1) := by
  constructor
  · intro label t hmax
    constructor
    · intro hp
      refine mem_of_maximal hmax (fun hn => ?_)
      rcases hp with hp | hp <;> simp [ready, hn, hp]
    · intro hp
      refine mem_of_maximal hmax (fun hn => ?_)
      rcases hp with hp | hp <;> simp [ready, hn, hp]
  · intro label t h
    have hnd := valid_nodup h
    exact ⟨List.nodup_iff_count_le_one.mp hnd _, List.nodup_iff_count_le_one.mp hnd _⟩

/-- Witness for claim C6: in the concrete complete approved run the OR-joins
fired, and each fired exactly once. -/
theorem or_join_single_fire_witness :
    readyAny traceComplexoAprovado "complexo_aprovado" = false ∧
    Step.logger_processamento_aprovado ∈ traceComplexoAprovado ∧
    Step.finalizar_flow ∈ traceComplexoAprovado ∧
    traceComplexoAprovado.count Step.finalizar_flow ≤ 1 :=
  ⟨by decide,
   (or_join_single_fire.1 "complexo_aprovado" traceComplexoAprovado (by decide)).1
     (Or.inl (by decide)),
   (or_join_single_fire.1 "complexo_aprovado" traceComplexoAprovado (by decide)).2
     (Or.inl ((or_join_single_fire.1 "complexo_aprovado" traceComplexoAprovado (by decide)).1
       (Or.inl (by decide)))),
   (or_join_single_fire.2 "complexo_aprovado" traceComplexoAprovado
     (validTraceB_sound _ _ (by decide))).2⟩

/-- Claim C7: the round trip through the state schema is the identity — for
every state a step produces, serializing with `model_dump` and
re-validating with `FlowExemploState(**state)` yields exactly the same
state, with no field lost and no type changed. -/
theorem state_roundtrip_identity :
    ∀ s : FlowExemploState, flowExemploState_validate (model_dump s) = some s :=
  fun _ => rfl

/-- Claim C8: the caller-supplied external-context inputs never reach the
crews — two initial inputs that agree on the topic but differ arbitrarily in
the three `info_externa` values produce identical argument triples for
`metodo_de_execucao_da_crew`, and the step `executar_crew_exemplo` behaves
identically under every external service. -/
theorem crew_inputs_topic_only :
    ∀ (inp1 inp2 : FlowInput), inp1.topico = inp2.topico →
      ((preparar_informacoes_externas (iniciar_flow inp1)).info_externa_1,
       (preparar_informacoes_externas (iniciar_flow inp1)).info_externa_2,
       (preparar_informacoes_externas (iniciar_flow inp1)).info_externa_3) =
      ((preparar_informacoes_externas (iniciar_flow inp2)).info_externa_1,
       (preparar_informacoes_externas (iniciar_flow inp2)).info_externa_2,
       (preparar_informacoes_externas (iniciar_flow inp2)).info_externa_3) ∧
      ∀ call : String → String → String → Except String CrewDict,
        executar_crew_exemplo call (preparar_informacoes_externas (iniciar_flow inp1)) =
          executar_crew_exemplo call (preparar_informacoes_externas (iniciar_flow inp2)) := by
  intro inp1 inp2 h
  have hs : preparar_informacoes_externas (iniciar_flow inp1) =
      preparar_informacoes_externas (iniciar_flow inp2) := by
    simp [preparar_informacoes_externas, iniciar_flow, h]
  exact ⟨by rw [hs], fun call => by rw [hs]⟩

/-- Witness for claim C8: two concrete inputs with the same topic and
entirely different `info_externa` values yield equal crew-argument
triples. -/
theorem crew_inputs_topic_only_witness :
    (FlowInput.mk (some "t") (some "a") (some "b") (some "c")).topico =
      (FlowInput.mk (some "t") none none none).topico ∧
    ((preparar_informacoes_externas (iniciar_flow
        (FlowInput.mk (some "t") (some "a") (some "b") (some "c")))).info_externa_1,
     (preparar_informacoes_externas (iniciar_flow
        (FlowInput.mk (some "t") (some "a") (some "b") (some "c")))).info_externa_2,
     (preparar_informacoes_externas (iniciar_flow
        (FlowInput.mk (some "t") (some "a") (some "b") (some "c")))).info_externa_3) =
    ((preparar_informacoes_externas (iniciar_flow
        (FlowInput.mk (some "t") none none none))).info_externa_1,
     (preparar_informacoes_externas (iniciar_flow
        (FlowInput.mk (some "t") none none none))).info_externa_2,
     (preparar_informacoes_externas (iniciar_flow
        (FlowInput.mk (some "t") none none none))).info_externa_3) :=
  ⟨rfl, (crew_inputs_topic_only (FlowInput.mk (some "t") (some "a") (some "b") (some "c"))
    (FlowInput.mk (some "t") none none none) rfl).1⟩

/-- Claim C9: `ExemploTool._run` returns the constant consolidated string
for every pair of arguments — neither argument affects the result. -/
theorem exemploTool_run_constant :
    ∀ argument_1 argument_2 : String,
      ExemploTool.run argument_1 argument_2 =
        "Organizar as informações retornadas pelos métodos internos: metodo interno 1 metodo interno 2" :=
  fun _ _ => rfl

/-- Claim C10: `iniciar_flow` never fails on missing inputs — for every
initial input dict it returns a complete state whose `topico` is the
supplied value or the documented placeholder, whose `info_externa_1` is the
supplied value or the default derived from the topic, and whose every other
field carries its schema default. -/
theorem iniciar_flow_total_defaults :
    ∀ input : FlowInput,
      (iniciar_flow input).topico = input.topico.getD "[Tópico não especificado]" ∧
      (iniciar_flow input).info_externa_1 =
        input.info_externa_1.getD ("Contexto inicial sobre " ++ input.topico.getD "[Tópico]") ∧
      (iniciar_flow input).info_externa_2 = "" ∧
      (iniciar_flow input).info_externa_3 = "" ∧
      (iniciar_flow input).resultado_crew_exemplo = [] ∧
      (iniciar_flow input).resultado_crew_exemplo_2 = [] ∧
      (iniciar_flow input).relatorio_final = "" ∧
      (iniciar_flow input).processamento_complexo = false ∧
      (iniciar_flow input).validacao_aprovada = false ∧
      (iniciar_flow input).tipo_processamento = "" ∧
      (iniciar_flow input).logs_or = [] ∧
      (iniciar_flow input).logs_and = [] ∧
      (iniciar_flow input).logs_router = [] :=
  fun _ => ⟨rfl, rfl, rfl, rfl, rfl, rfl, rfl, rfl, rfl, rfl, rfl, rfl, rfl⟩
